import Mathlib

/-!
Verification of the natural-language specification of the msticpy
`AzureMonitorDriver` (src/msticpy/data/drivers/azure_monitor_driver.py) and
`DomainValidator.in_abuse_list` (src/msticpy/context/domain_utils.py), as a
shallow embedding in Lean.

Python dictionaries are embedded as association lists in insertion order
(`dictInsert` is Python's `d[k] = v`); optional/`None`-able values as `Option`;
Python truthiness of optional strings as `pyTruthy`; exceptions as `Except`.
External collaborators (the Azure `LogsQueryClient`, `az_connect`, the
msticpy `WorkspaceConfig` settings lookup) are parameters of the embedded
functions, so theorems quantify over every behaviour of those collaborators.
-/

namespace Msticpy

/-- Python truthiness of an optional string: `None` and `""` are falsy. -/
def pyTruthy : Option String → Bool
  | none => false
  | some s => !(s == "")

/-- Python `a or b` on optional strings: `a` if truthy, else `b`. -/
def pyOrStr (a b : Option String) : Option String :=
  if pyTruthy a then a else b

/-- Python `d[k] = v` on a dict embedded as an association list in insertion
order: an existing key keeps its position and gets the new value, a new key
is appended at the end. -/
def dictInsert {β : Type} (d : List (String × β)) (k : String) (v : β) :
    List (String × β) :=
  if d.any (fun p => p.1 == k) then
    d.map (fun p => if p.1 == k then (k, v) else p)
  else d ++ [(k, v)]

/-- A Python dict comprehension `{k(x): v(x) for x in xs}` over an already
mapped list of pairs: repeated insertion into an empty dict. -/
def dictOfPairs {β : Type} (ps : List (String × β)) : List (String × β) :=
  ps.foldl (fun d p => dictInsert d p.1 p.2) []

/-- Dict lookup `d[k]` / `k in d`, as the first entry with key `k`. -/
def dlookup {β : Type} (k : String) : List (String × β) → Option β
  | [] => none
  | p :: t => if p.1 == k then some p.2 else dlookup k t

/-- Key order on dict entries.  Python's `sorted(d.items())` compares the
`(key, value)` tuples, but a dict never holds two entries with the same key,
so the key alone decides the order. -/
def keyLe {β : Type} (a b : String × β) : Prop := a.1 ≤ b.1

instance {β : Type} : DecidableRel (@keyLe β) :=
  fun a b => inferInstanceAs (Decidable (a.1 ≤ b.1))

instance {β : Type} : IsTotal (String × β) keyLe :=
  ⟨fun a b => le_total a.1 b.1⟩

instance {β : Type} : IsTrans (String × β) keyLe :=
  ⟨fun _ _ _ h h' => le_trans h h'⟩

/-- Python `dict(sorted(d.items()))`: the entries in ascending key order. -/
def sortByKey {β : Type} (d : List (String × β)) : List (String × β) :=
  List.insertionSort keyLe d

/-- The msticpy exception classes raised by the embedded code, plus the
built-in Python exceptions the driver can raise.  Each constructor carries
the `title` (msticpy errors) or message (built-ins) from the source. -/
inductive MpError where
  | notConnectedError (title : String)
  | kqlConnectionError (title : String)
  | noDataSourceError (title : String)
  | dataQueryError (title : String)
  | valueError (msg : String)
  | stopIteration
  | indexError
deriving DecidableEq

/-- One result table from the Azure Monitor service (`LogsTable`). -/
structure LogsTable where
  rows : List (List String)
  columns : List String
deriving DecidableEq

/-- The service result of `LogsQueryClient.query_workspace`: either a
`LogsQueryResult` (full success, `tables`) or a `LogsQueryPartialResult`
(`partial_data`).  `status_name` embeds `result.status.name`. -/
inductive SvcResult where
  | res (status_name : String) (tables : List LogsTable)
  | partRes (status_name : String) (part_data : List LogsTable)
deriving DecidableEq

/-- An exception escaping `query_workspace`: an `HttpResponseError` with its
message, or any other exception. -/
inductive SvcErr where
  | httpError (message : String)
  | unknownErr (message : String)
deriving DecidableEq

/-- A `pandas.Timestamp`: nanoseconds since the epoch plus an optional
timezone (embedded as a UTC offset in minutes, carried opaquely). -/
structure PdTimestamp where
  ns : Int
  tz : Option Int
deriving DecidableEq

/-- A `datetime.datetime`: microseconds since the epoch plus an optional
timezone (same embedding of the timezone as `PdTimestamp`). -/
structure PyDatetime where
  us : Int
  tz : Option Int
deriving DecidableEq

/-- `pandas.Timestamp.to_pydatetime(warn=False)`: the nanosecond value is
floored to microseconds (nonzero nanosecond remainders are discarded; the
`warn=False` silences pandas' warning about exactly that), the timezone is
kept. -/
def to_pydatetime (t : PdTimestamp) : PyDatetime :=
  { us := Int.fdiv t.ns 1000, tz := t.tz }

/-- A time bound as supplied to the driver: either a `pandas.Timestamp` or a
plain `datetime`. -/
inductive TimeValue where
  | ts (t : PdTimestamp)
  | dt (d : PyDatetime)
deriving DecidableEq

/-- The instant a time bound denotes, in nanoseconds since the epoch. -/
def instantNs : TimeValue → Int
  | .ts t => t.ns
  | .dt d => d.us * 1000

/-- The timezone carried by a time bound. -/
def tzOf : TimeValue → Option Int
  | .ts t => t.tz
  | .dt d => d.tz

/-- The per-bound conversion in `_get_time_span_value`: a `pd.Timestamp` is
converted with `to_pydatetime(warn=False)`, a `datetime` passes through. -/
def convertBound : TimeValue → TimeValue
  | .ts t => .dt (to_pydatetime t)
  | .dt d => .dt d

/-- The keyword arguments read by `query_with_results` /
`_get_time_span_value`.  `time_span` is flattened into its `start`/`end`
entries; a missing dict key is `none`. -/
structure QueryKwargs where
  default_time_params : Bool
  time_span_start : Option TimeValue
  time_span_end : Option TimeValue
  fail_if_part : Option Bool
  fail_on_part : Option Bool
  timeout : Option Int
deriving DecidableEq

/-- The keyword arguments read by `connect` / `_get_workspaces` that the
claims exercise.  A `none` field is an absent keyword. -/
structure ConnectKwargs where
  tenant_id : Option String
  mp_az_tenant_id : Option String
  workspace : Option String
  workspaces : Option (List String)
  workspace_ids : Option (List String)
  timeout : Option Int
  fail_on_part : Option Bool
deriving DecidableEq

/-- The schema: table name to sorted column name/type mapping. -/
abbrev Schema : Type := List (String × List (String × String))

/-- The mutable state of an `AzureMonitorDriver` instance, restricted to the
attributes the claims touch.  The query client is opaque (`Option Unit`);
`ws_config` embeds the `WorkspaceConfig` mapping as an association list, as
presence of the object plus its entries (a present object is truthy). -/
structure DriverState where
  connected : Bool
  query_client : Option Unit
  ws_name : Option String
  ws_config : Option (List (String × String))
  def_connection_str : Option String
  workspace_id : Option String
  workspace_ids : List String
  az_tenant_id : Option String
  fail_on_part : Bool
  try_get_schema : Bool
  schema : Schema
  def_timeout : Int
deriving DecidableEq

/-- `WorkspaceConfig.CONF_WS_NAME_KEY`, the key of the workspace name inside
a `WorkspaceConfig` mapping (`wsconfig` is outside src/; the key is opaque,
only its identity matters). -/
def conf_ws_name_key : String := "workspace_name"

/-- The workspace name stored in the driver's `WorkspaceConfig`, when the
config is present and contains `CONF_WS_NAME_KEY`
(`self._ws_config and WorkspaceConfig.CONF_WS_NAME_KEY in self._ws_config`,
then `self._ws_config[CONF_WS_NAME_KEY]`). -/
def configName (s : DriverState) : Option String :=
  s.ws_config.bind (fun cfg => dlookup conf_ws_name_key cfg)

/-- `AzureMonitorDriver.current_connection` (getter), lines 159-175: the
workspace name, else the config's workspace name, else the chain of
`or`-fallbacks ending in the literal `"AzureMonitor"`. -/
def current_connection (s : DriverState) : String :=
  let connection := s.ws_name
  let connection :=
    if pyTruthy connection then connection
    else
      match configName s with
      | some v => some v
      | none => connection
  ((pyOrStr (pyOrStr (pyOrStr (pyOrStr connection s.def_connection_str)
      s.workspace_id) (some (s.workspace_ids.headD "")))
      (some "AzureMonitor")).getD "AzureMonitor")

/-- `AzureMonitorDriver.current_connection` (setter), lines 177-180: the
assigned value is deleted and the state is untouched. -/
def current_connection_set (s : DriverState) (v : String) : DriverState :=
  let _ := v
  s

/-- The first truthy entry of a list of optional strings.  Used to state the
spec's reading of `current_connection` as a priority chain. -/
def firstTruthy : List (Option String) → Option String
  | [] => none
  | x :: xs => if pyTruthy x then x else firstTruthy xs

/-- The spec's description of `current_connection`: the first of
workspace name, config workspace name, default connection string, single
workspace ID, first workspace ID of the list that is set (non-empty), else
the literal `"AzureMonitor"`. -/
def current_connection_spec (s : DriverState) : String :=
  (firstTruthy [s.ws_name, configName s, s.def_connection_str,
    s.workspace_id, s.workspace_ids.head?]).getD "AzureMonitor"

/-- Modelled from the spec: `TimeSpan` (msticpy.common.timespan, not under
src/) normalizes a supplied (start, end) pair; the spec treats it as holding
the two bounds, so it is embedded as the identity on the pair. -/
def timeSpanOf (start fin : TimeValue) : TimeValue × TimeValue := (start, fin)

/-- `AzureMonitorDriver._get_time_span_value`, lines 514-542: `None` when
`default_time_params` is set or either bound is missing, otherwise the
(start, end) pair with `pd.Timestamp` bounds converted via
`to_pydatetime(warn=False)`. -/
def _get_time_span_value (kwargs : QueryKwargs) : Option (TimeValue × TimeValue) :=
  if kwargs.default_time_params || kwargs.time_span_start.isNone
      || kwargs.time_span_end.isNone then
    none
  else
    match kwargs.time_span_start, kwargs.time_span_end with
    | some s, some e =>
      let time_span := timeSpanOf s e
      some (convertBound time_span.1, convertBound time_span.2)
    | _, _ => none

/-- The query descriptor: `query_source.params.get("table", {}).get("default")`
flattened to the optional declared table name. -/
structure QuerySrc where
  table_default : Option String
deriving DecidableEq

/-- Python `str.strip()`: leading and trailing whitespace removed, written
on the character list (the `Substring` auxiliaries behind `String.trim` do
not reduce in the kernel). -/
def pyStrip (s : String) : String :=
  ⟨((s.data.dropWhile Char.isWhitespace).reverse.dropWhile
      Char.isWhitespace).reverse⟩

/-- The effective table name `_check_table_exists` matches against the
schema: the declared name, stripped and truncated at the first space
(`table.strip().split(" ")[0]`), but only when the stripped name still
contains a space; otherwise the raw name. -/
def effectiveTableName (table : String) : String :=
  if (pyStrip table).data.contains ' ' then
    ⟨(pyStrip table).data.takeWhile (fun c => c ≠ ' ')⟩
  else table

instance {ε α : Type} [DecidableEq ε] [DecidableEq α] :
    DecidableEq (Except ε α) := fun a b =>
  match a, b with
  | .error e₁, .error e₂ =>
    if h : e₁ = e₂ then .isTrue (by rw [h])
    else .isFalse (fun hc => h (Except.error.inj hc))
  | .ok x, .ok y =>
    if h : x = y then .isTrue (by rw [h])
    else .isFalse (fun hc => h (Except.ok.inj hc))
  | .error _, .ok _ => .isFalse (fun hc => Except.noConfusion hc)
  | .ok _, .error _ => .isFalse (fun hc => Except.noConfusion hc)

/-- `AzureMonitorDriver._check_table_exists`, lines 544-561: skipped for an
empty schema or a missing/falsy declared table, otherwise a case-sensitive
key-membership test of the effective table name in the schema. -/
def _check_table_exists (schema : Schema) (query_source : QuerySrc) :
    Except MpError Unit :=
  if schema.isEmpty then .ok ()
  else
    match query_source.table_default with
    | none => .ok ()
    | some table =>
      if table == "" then .ok ()
      else
        let table := effectiveTableName table
        if schema.any (fun p => p.1 == table) then .ok ()
        else .error (.noDataSourceError (table ++ " not found."))

/-- `AzureMonitorDriver._get_query_status`, lines 563-575: the status name
and the table count (`tables` for a full result, `partial_data` for a
partial one). -/
def _get_query_status : SvcResult → String × Nat
  | .res status_name tables => (status_name, tables.length)
  | .partRes status_name part_data => (status_name, part_data.length)

/-- The effective fail-on-partial setting of one `query_with_results` call:
`kwargs.get("fail_if_partial", kwargs.get("fail_on_partial",
self._fail_on_partial))`. -/
def effFailOnPart (s : DriverState) (kwargs : QueryKwargs) : Bool :=
  kwargs.fail_if_part.getD (kwargs.fail_on_part.getD s.fail_on_part)

/-- The arguments `query_with_results` dispatches to
`LogsQueryClient.query_workspace`. -/
structure DispatchArgs where
  workspace_id : Option String
  query : String
  timespan : Option (TimeValue × TimeValue)
  server_timeout : Int
  additional_workspaces : Option (List String)
deriving DecidableEq

/-- The dispatch arguments computed by `query_with_results`, lines 331-356:
the first workspace ID of the list (else the single one), the computed time
span, the timeout, and the remaining workspace IDs as the fan-out list. -/
def dispatchArgs (s : DriverState) (query : String) (kwargs : QueryKwargs) :
    DispatchArgs :=
  { workspace_id := pyOrStr s.workspace_ids.head? s.workspace_id
    query := query
    timespan := _get_time_span_value kwargs
    server_timeout := kwargs.timeout.getD s.def_timeout
    additional_workspaces :=
      if s.workspace_ids.isEmpty then none else some s.workspace_ids.tail }

/-- The message of the partial-result warning and error. -/
def partMsg : String :=
  "Partial results returned. This may indicate a query timeout."

/-- The successful output of `query_with_results`: emitted warnings, the
DataFrame (rows and columns of the chosen table), and the status record. -/
structure QwrOutput where
  warns : List String
  data : LogsTable
  status : String × Nat
deriving DecidableEq

/-- `AzureMonitorDriver.query_with_results`, lines 306-384.  `svc` is the
bound `LogsQueryClient.query_workspace`; it is a parameter, so a theorem
about the not-connected path quantifying over `svc` shows the error is
raised before any dispatch. -/
def query_with_results (s : DriverState)
    (svc : DispatchArgs → Except SvcErr SvcResult)
    (query : String) (kwargs : QueryKwargs) : Except MpError QwrOutput :=
  if !s.connected || s.query_client.isNone then
    .error (.notConnectedError "Workspace not connected.")
  else
    match svc (dispatchArgs s query kwargs) with
    | .error (.httpError _) => .error (.dataQueryError "Query Failure")
    | .error (.unknownErr _) => .error (.dataQueryError "connection failed")
    | .ok result =>
      let status := _get_query_status result
      match result with
      | .partRes _ part_data =>
        if effFailOnPart s kwargs then
          .error (.dataQueryError "Partial results returned")
        else
          match part_data.head? with
          | some table =>
            .ok { warns := [partMsg]
                  data := { rows := table.rows, columns := table.columns }
                  status := status }
          | none => .error .indexError
      | .res _ tables =>
        match tables.head? with
        | some table =>
          .ok { warns := []
                data := { rows := table.rows, columns := table.columns }
                status := status }
        | none => .error .indexError

/-- `AzureMonitorDriver.query`, lines 266-303: the not-connected check, the
optional table check against the schema, then delegation to
`query_with_results`. -/
def query (s : DriverState) (svc : DispatchArgs → Except SvcErr SvcResult)
    (q : String) (query_source : Option QuerySrc) (kwargs : QueryKwargs) :
    Except MpError QwrOutput :=
  if !s.connected || s.query_client.isNone then
    .error (.notConnectedError "Workspace not connected.")
  else
    match query_source with
    | some qs =>
      match _check_table_exists s.schema qs with
      | .error e => .error e
      | .ok _ => query_with_results s svc q kwargs
    | none => query_with_results s svc q kwargs

/-- `AzureMonitorDriver._get_workspaces_by_id`, lines 483-495: without a
truthy tenant ID the connection error "No tenant_id supplied." is raised,
otherwise the ID list is stored. -/
def _get_workspaces_by_id (s : DriverState) (workspace_ids : List String) :
    Except MpError DriverState :=
  if !(pyTruthy s.az_tenant_id) then
    .error (.kqlConnectionError "No tenant_id supplied.")
  else .ok { s with workspace_ids := workspace_ids }

/-- `AzureMonitorDriver._get_workspaces_by_name`, lines 497-512.  `cfgName`
embeds the `WorkspaceConfig` settings lookup (outside src/): the
`(workspace_id, tenant_id)` pair configured for a workspace name.  The pairs
are collected into a dict keyed by workspace ID; more than one distinct
tenant ID among the dict values raises
`ValueError("All workspaces must have the same tenant ID.")`; otherwise the
first tenant value and the key list are stored (`list(set(...))` of the
already-distinct dict keys, embedded in insertion order). -/
def _get_workspaces_by_name (cfgName : String → String × String)
    (s : DriverState) (workspaces : List String) : Except MpError DriverState :=
  let workspace_configs := dictOfPairs (workspaces.map cfgName)
  if 1 < (workspace_configs.map (fun p => p.2)).dedup.length then
    .error (.valueError "All workspaces must have the same tenant ID.")
  else
    match workspace_configs with
    | [] => .error .stopIteration
    | p :: _ =>
      .ok { s with az_tenant_id := some p.2
                   workspace_ids := workspace_configs.map (fun q => q.1) }

/-- `AzureMonitorDriver._get_workspaces`, lines 429-481: stores the
tenant-ID keyword, then dispatches on a truthy (non-empty) `workspaces`
list, then a truthy `workspace_ids` list, else the single-workspace path
(lines 440-481, resolving a `WorkspaceConfig` from a name or connection
string), which is the `singleWs` parameter here since no claim exercises
it. -/
def _get_workspaces (cfgName : String → String × String)
    (singleWs : DriverState → Option String → ConnectKwargs →
      Except MpError DriverState)
    (s : DriverState) (connection_str : Option String)
    (kwargs : ConnectKwargs) : Except MpError DriverState :=
  let s := { s with az_tenant_id := kwargs.tenant_id.or kwargs.mp_az_tenant_id }
  match kwargs.workspaces with
  | some (w :: ws) => _get_workspaces_by_name cfgName s (w :: ws)
  | _ =>
    match kwargs.workspace_ids with
    | some (i :: ids) => _get_workspaces_by_id s (i :: ids)
    | _ => singleWs s connection_str kwargs

/-- `AzureMonitorDriver._create_query_client`, lines 386-416: resets the
default timeout, resolves the workspaces, then fetches a credential with
`az_connect` (the first network interaction, embedded as the `azConnect`
parameter) and builds the opaque `LogsQueryClient`. -/
def _create_query_client (cfgName : String → String × String)
    (singleWs : DriverState → Option String → ConnectKwargs →
      Except MpError DriverState)
    (azConnect : Except MpError Unit)
    (s : DriverState) (connection_str : Option String)
    (kwargs : ConnectKwargs) : Except MpError (DriverState × Unit) :=
  let s := { s with def_timeout := kwargs.timeout.getD 300 }
  match _get_workspaces cfgName singleWs s connection_str kwargs with
  | .error e => .error e
  | .ok s1 =>
    match azConnect with
    | .error e => .error e
    | .ok _ => .ok (s1, ())

/-- `AzureMonitorDriver.connect`, lines 238-249: sets `_connected = False`,
builds the query client, updates `fail_on_partial`, fetches the schema when
enabled, and only then sets `_connected = True`.  `createClient` and
`getSchema` are the two fallible steps (lines 240 and 245); an exception
escaping either carries the driver state as mutated so far. -/
def connect
    (createClient : DriverState → Except (MpError × DriverState)
      (DriverState × Unit))
    (getSchema : DriverState → Except (MpError × DriverState)
      (DriverState × Schema))
    (s0 : DriverState) (kwargs : ConnectKwargs) :
    Except (MpError × DriverState) DriverState :=
  let s := { s0 with connected := false }
  match createClient s with
  | .error es => .error es
  | .ok (s1, client) =>
    let s2 := { s1 with
      query_client := some client
      fail_on_part := kwargs.fail_on_part.getD s1.fail_on_part }
    match (if s2.try_get_schema then
        (getSchema s2).map (fun r => { r.1 with schema := r.2 })
      else .ok s2) with
    | .error es => .error es
    | .ok s3 => .ok { s3 with connected := true }

/-- One raw column entry of the management endpoint's table list:
`{"name": ..., "type": ...}` (`ctype` embeds the `"type"` key). -/
structure RawColumn where
  name : String
  ctype : String
deriving DecidableEq

/-- One table's raw schema: the `"standardColumns"` and `"customColumns"`
lists (a missing key is the empty list, as with `.get(..., {})`). -/
structure RawSchema where
  standardColumns : List RawColumn
  customColumns : List RawColumn
deriving DecidableEq

/-- One raw table of the management endpoint response: the `"name"` and the
`"properties" / "schema"` object. -/
structure RawTable where
  name : String
  schema : RawSchema
deriving DecidableEq

/-- `_schema_format_columns`, lines 695-702: a dict of the standard columns,
each custom column then inserted (overriding a standard column with the same
name), the result sorted. -/
def _schema_format_columns (table_schema : RawSchema) :
    List (String × String) :=
  let columns := dictOfPairs
    (table_schema.standardColumns.map (fun c => (c.name, c.ctype)))
  let columns := table_schema.customColumns.foldl
    (fun d c => dictInsert d c.name c.ctype) columns
  sortByKey columns

/-- `_schema_format_tables`, lines 684-692: the dict of table name to
formatted columns over the endpoint's `"value"` list, sorted by table
name. -/
def _schema_format_tables (ws_tables : List RawTable) : Schema :=
  sortByKey (dictOfPairs
    (ws_tables.map (fun t => (t.name, _schema_format_columns t.schema))))

/-- An X.509 certificate, opaque for this development. -/
abbrev Cert : Type := String

/-- `DomainValidator.in_abuse_list`, lines 237-266 of
src/msticpy/context/domain_utils.py.  The four fallible steps of the `try`
block — `ssl.get_server_certificate`, `x509.load_pem_x509_certificate`,
`Certificate.fingerprint(SHA1())`, and the abuse-list membership test — are
parameters; the `except Exception` arm of any failure is `(false, none)`,
and a completed run returns the membership result with the certificate. -/
def in_abuse_list (getCert : Except String String)
    (parseCert : String → Except String Cert)
    (fingerprintOf : Cert → Except String String)
    (abuseLookup : String → Except String Bool) : Bool × Option Cert :=
  match getCert with
  | .error _ => (false, none)
  | .ok cert =>
    match parseCert cert with
    | .error _ => (false, none)
    | .ok x509_cert =>
      match fingerprintOf x509_cert with
      | .error _ => (false, none)
      | .ok cert_sha1 =>
        match abuseLookup cert_sha1 with
        | .error _ => (false, none)
        | .ok result => (result, some x509_cert)

/-! Concrete sample values used to evaluate the theorems on closed inputs. -/

/-- A freshly constructed, disconnected driver state. -/
def exState : DriverState :=
  { connected := false, query_client := none, ws_name := none,
    ws_config := none, def_connection_str := none, workspace_id := none,
    workspace_ids := [], az_tenant_id := none, fail_on_part := false,
    try_get_schema := true, schema := [], def_timeout := 300 }

/-- A connected driver state with a client and a one-table schema. -/
def exConnState : DriverState :=
  { exState with
    connected := true
    query_client := some ()
    workspace_id := some "W1"
    schema := [("SecurityAlert", [("TimeGenerated", "datetime")])] }

/-- Query keyword arguments with every optional entry absent. -/
def exKwargs : QueryKwargs :=
  { default_time_params := false, time_span_start := none,
    time_span_end := none, fail_if_part := none, fail_on_part := none,
    timeout := none }

/-- Connect keyword arguments with every optional entry absent. -/
def exConnKwargs : ConnectKwargs :=
  { tenant_id := none, mp_az_tenant_id := none, workspace := none,
    workspaces := none, workspace_ids := none, timeout := none,
    fail_on_part := none }

/-- A query service returning one successful table. -/
def exSvc : DispatchArgs → Except SvcErr SvcResult :=
  fun _ => .ok (.res "SUCCESS" [{ rows := [["r1"]], columns := ["Col1"] }])

/-- A query service returning a partial result with one data table. -/
def exSvcPart : DispatchArgs → Except SvcErr SvcResult :=
  fun _ => .ok (.partRes "PARTIAL" [{ rows := [["p1"]], columns := ["ColP"] }])

/-- A workspace-name settings lookup mapping two names to one workspace ID
with two different tenant IDs. -/
def c3cfg : String → String × String :=
  fun w => if w == "w1" then ("W", "T1") else ("W", "T2")

/-- A workspace-name settings lookup with distinct workspace IDs and two
distinct tenant IDs. -/
def c3cfgB : String → String × String :=
  fun w => if w == "w1" then ("W1", "T1") else ("W2", "T2")

/-- A single-workspace resolution step that succeeds without changes. -/
def exSingleWs : DriverState → Option String → ConnectKwargs →
    Except MpError DriverState :=
  fun s _ _ => .ok s

/-- A client-creation step failing with a connection error. -/
def c5ccFail : DriverState → Except (MpError × DriverState)
    (DriverState × Unit) :=
  fun st => .error (.kqlConnectionError "No connection details", st)

/-- A client-creation step that succeeds. -/
def c5ccOk : DriverState → Except (MpError × DriverState)
    (DriverState × Unit) :=
  fun st => .ok (st, ())

/-- A schema-fetch step returning an empty schema. -/
def c5gsOk : DriverState → Except (MpError × DriverState)
    (DriverState × Schema) :=
  fun st => .ok (st, [])

/-- Raw tables for the schema-formatting claim: two tables, one with a
custom column overriding a standard column. -/
def c6tableA : RawTable :=
  { name := "ZTable",
    schema := { standardColumns := [{ name := "B", ctype := "string" },
                                    { name := "A", ctype := "int" }],
                customColumns := [{ name := "B", ctype := "dynamic" },
                                  { name := "C", ctype := "bool" }] } }

/-- A second raw table with only standard columns. -/
def c6tableB : RawTable :=
  { name := "ATable",
    schema := { standardColumns := [{ name := "X", ctype := "guid" }],
                customColumns := [] } }

/-- Always-succeeding certificate pipeline steps with a negative
abuse-list lookup. -/
def c9parse : String → Except String Cert := fun _ => .ok "cert"

/-- A fingerprint step that always succeeds. -/
def c9finger : Cert → Except String String := fun _ => .ok "ab12"

/-- An abuse-list lookup that always reports "not found". -/
def c9lookupNeg : String → Except String Bool := fun _ => .ok false

/-- Query kwargs with a timestamp start bound of 1 nanosecond past the
epoch and a datetime end bound. -/
def c7kwargs : QueryKwargs :=
  { exKwargs with
    time_span_start := some (.ts { ns := 1, tz := none })
    time_span_end := some (.dt { us := 0, tz := none }) }

/-- Query kwargs with a whole-microsecond timestamp start bound and a
datetime end bound. -/
def c7kwargsFull : QueryKwargs :=
  { exKwargs with
    time_span_start := some (.ts { ns := 5000, tz := some 0 })
    time_span_end := some (.dt { us := 7, tz := none }) }

/-!
### Claim C1

`query_with_results` on a driver that is not connected (flag false or
client absent) raises `MsticpyNotConnectedError`, for every query string
and keyword set, and for every behaviour of the query client (the result
does not depend on `svc`, so no dispatch happens).
-/

/-- C1: for every query string and keyword arguments, `query_with_results`
on a driver whose connected flag is false or whose query client is `None`
fails with the NotConnectedError, independently of the query service, i.e.
before any dispatch to the query client. -/
theorem c1_query_before_connect (s : DriverState)
    (h : s.connected = false ∨ s.query_client = none) :
    ∀ (svc : DispatchArgs → Except SvcErr SvcResult) (q : String)
      (kwargs : QueryKwargs),
      query_with_results s svc q kwargs =
        .error (.notConnectedError "Workspace not connected.") := by
  intro svc q kwargs
  rcases h with h | h <;> simp [query_with_results, h]

/-- Witness for C1: the freshly constructed driver state is disconnected
and a query on it fails with the NotConnectedError. -/
theorem c1_query_before_connect_witness :
    (exState.connected = false ∨ exState.query_client = none)
    ∧ query_with_results exState exSvc "SecurityAlert | take 1" exKwargs =
        .error (.notConnectedError "Workspace not connected.") :=
  ⟨Or.inl rfl,
    c1_query_before_connect exState (Or.inl rfl) exSvc "SecurityAlert | take 1"
      exKwargs⟩

/-!
### Claim C2

On a connected driver, a partial service result either raises the query
failure error (when the effective fail-on-partial setting is true) or is
returned with a warning, the first partial-data table, and a status record
of the partial status name and the partial-data table count.
-/

/-- C2: on a connected driver whose query dispatch returns a partial result
with at least one partial-data table, `query_with_results` raises the
query-failure error when the effective fail-on-partial setting (per-call or
driver default) is true, and otherwise returns a warning, a table built
from the first partial-data block, and the status record (partial status
name, number of partial-data tables). -/
theorem c2_part_result_handling (s : DriverState)
    (svc : DispatchArgs → Except SvcErr SvcResult) (q : String)
    (kwargs : QueryKwargs) (nm : String) (t : LogsTable)
    (rest : List LogsTable)
    (hconn : s.connected = true) (hcl : s.query_client.isSome = true)
    (hsvc : svc (dispatchArgs s q kwargs) = .ok (.partRes nm (t :: rest))) :
    (effFailOnPart s kwargs = true →
      query_with_results s svc q kwargs =
        .error (.dataQueryError "Partial results returned"))
    ∧ (effFailOnPart s kwargs = false →
      query_with_results s svc q kwargs =
        .ok { warns := [partMsg]
              data := { rows := t.rows, columns := t.columns }
              status := (nm, (t :: rest).length) }) := by
  obtain ⟨c, hc⟩ := Option.isSome_iff_exists.mp hcl
  constructor <;> intro hf <;>
    simp [query_with_results, hconn, hc, hsvc, hf, _get_query_status]

/-- Witness for C2: a concrete connected driver and a service returning one
partial table; with `fail_on_partial` passed per-call the query fails, and
without it the partial table and status are returned. -/
theorem c2_part_result_handling_witness :
    (query_with_results exConnState exSvcPart "q"
        { exKwargs with fail_if_part := some true } =
      .error (.dataQueryError "Partial results returned"))
    ∧ (query_with_results exConnState exSvcPart "q" exKwargs =
      .ok { warns := [partMsg]
            data := { rows := [["p1"]], columns := ["ColP"] }
            status := ("PARTIAL", 1) }) := by
  refine ⟨?_, ?_⟩
  · exact (c2_part_result_handling exConnState exSvcPart "q"
      { exKwargs with fail_if_part := some true } "PARTIAL"
      { rows := [["p1"]], columns := ["ColP"] } [] rfl rfl rfl).1 rfl
  · exact (c2_part_result_handling exConnState exSvcPart "q" exKwargs
      "PARTIAL" { rows := [["p1"]], columns := ["ColP"] } [] rfl rfl rfl).2 rfl

/-!
### Claim C4

An explicit workspace-ID list without a tenant-ID keyword makes workspace
resolution fail, for every behaviour of the credential provider (the error
does not depend on `azConnect`).
-/

/-- C4: for every explicit non-empty workspace-ID list passed to connect
without a `tenant_id` (or legacy `mp_az_tenant_id`) keyword, client
creation fails with the "No tenant_id supplied." connection error — the
spec's ConfigurationError case — for every behaviour of the credential
provider, i.e. before any network call. -/
theorem c4_workspace_ids_without_tenant (cfgName : String → String × String)
    (singleWs : DriverState → Option String → ConnectKwargs →
      Except MpError DriverState)
    (az : Except MpError Unit) (s : DriverState)
    (connection_str : Option String) (kwargs : ConnectKwargs)
    (i : String) (ids : List String)
    (hws : kwargs.workspaces = none ∨ kwargs.workspaces = some [])
    (hids : kwargs.workspace_ids = some (i :: ids))
    (ht : kwargs.tenant_id = none) (hmp : kwargs.mp_az_tenant_id = none) :
    _create_query_client cfgName singleWs az s connection_str kwargs =
      .error (.kqlConnectionError "No tenant_id supplied.") := by
  rcases hws with h | h <;>
    simp [_create_query_client, _get_workspaces, h, hids, ht, hmp,
      _get_workspaces_by_id, pyTruthy, Option.or]

/-- Witness for C4: a one-element workspace-ID list with no tenant keyword
fails with the "No tenant_id supplied." error. -/
theorem c4_workspace_ids_without_tenant_witness :
    _create_query_client c3cfg exSingleWs (.ok ()) exState none
      { exConnKwargs with workspace_ids := some ["WSID1"] } =
      .error (.kqlConnectionError "No tenant_id supplied.") :=
  c4_workspace_ids_without_tenant c3cfg exSingleWs (.ok ()) exState none
    { exConnKwargs with workspace_ids := some ["WSID1"] } "WSID1" []
    (Or.inl rfl) rfl rfl rfl

/-!
### Claim C5

`connect` either fully succeeds and flips the connected flag to true, or
raises while the flag is still false; the two fallible steps (client
creation and schema fetch) never touch the flag themselves, matching the
source where neither assigns `_connected`.
-/

/-- C5: provided the client-creation and schema-fetch steps leave the
connected flag unchanged (as in the source, where neither assigns
`_connected`), every `connect` call either succeeds with the connected flag
true, or fails with the driver state left disconnected (flag false): no
half-connected state is observable via the flag. -/
theorem c5_connect_flag_discipline
    (createClient : DriverState → Except (MpError × DriverState)
      (DriverState × Unit))
    (getSchema : DriverState → Except (MpError × DriverState)
      (DriverState × Schema))
    (s0 : DriverState) (kwargs : ConnectKwargs)
    (hccOk : ∀ st st' c, createClient st = .ok (st', c) →
      st'.connected = st.connected)
    (hccErr : ∀ st e st', createClient st = .error (e, st') →
      st'.connected = st.connected)
    (hgsErr : ∀ st e st', getSchema st = .error (e, st') →
      st'.connected = st.connected) :
    (∀ s', connect createClient getSchema s0 kwargs = .ok s' →
      s'.connected = true)
    ∧ (∀ e s', connect createClient getSchema s0 kwargs = .error (e, s') →
      s'.connected = false) := by
  constructor
  · intro s' h
    simp only [connect] at h
    cases hcc : createClient { s0 with connected := false } with
    | error es =>
      rw [hcc] at h
      simp at h
    | ok r =>
      rw [hcc] at h
      simp only at h
      split at h
      · simp at h
      · simp only [Except.ok.injEq] at h
        rw [← h]
  · intro e s' h
    simp only [connect] at h
    cases hcc : createClient { s0 with connected := false } with
    | error es =>
      rw [hcc] at h
      simp only [Except.error.injEq] at h
      obtain ⟨e0, st0⟩ := es
      simp only [Prod.mk.injEq] at h
      have h2 := hccErr _ _ _ hcc
      rw [← h.2]
      exact h2
    | ok r =>
      rw [hcc] at h
      simp only at h
      split at h
      · next es heq =>
        simp only [Except.error.injEq] at h
        subst h
        split at heq
        · cases hgs : getSchema { r.1 with
              query_client := some r.2
              fail_on_part := kwargs.fail_on_part.getD r.1.fail_on_part } with
          | error es2 =>
            rw [hgs] at heq
            simp only [Except.map, Except.error.injEq] at heq
            obtain ⟨e2, st2⟩ := es2
            simp only [Prod.mk.injEq] at heq
            have h1 := hgsErr _ _ _ hgs
            have h2 : r.1.connected = false := hccOk _ r.1 r.2 (by rw [hcc])
            rw [← heq.2]
            simp only at h1
            rw [h1]
            exact h2
          | ok r2 =>
            rw [hgs] at heq
            simp [Except.map] at heq
        · simp at heq
      · simp at h

/-- Witness for C5: with a failing client-creation step the connect call
fails and the carried driver state is disconnected; with succeeding steps
it succeeds with the flag set. -/
theorem c5_connect_flag_discipline_witness :
    (connect c5ccFail c5gsOk exState exConnKwargs =
      .error (.kqlConnectionError "No connection details",
        { exState with connected := false })
      → ({ exState with connected := false } : DriverState).connected = false)
    ∧ (∀ s', connect c5ccOk c5gsOk exState exConnKwargs = .ok s' →
      s'.connected = true) := by
  constructor
  · exact (c5_connect_flag_discipline c5ccFail c5gsOk exState exConnKwargs
      (fun st st' c h => by cases h)
      (fun st e st' h => by
        simp only [c5ccFail, Except.error.injEq, Prod.mk.injEq] at h
        rw [h.2])
      (fun st e st' h => by cases h)).2 _ _
  · exact (c5_connect_flag_discipline c5ccOk c5gsOk exState exConnKwargs
      (fun st st' c h => by
        simp only [c5ccOk, Except.ok.injEq, Prod.mk.injEq] at h
        rw [← h.1]
      )
      (fun st e st' h => by cases h)
      (fun st e st' h => by cases h)).1

/-!
### Claim C7

The time-span computation sends no restriction when `default_time_params`
is set or a bound is missing; otherwise it sends the converted (start, end)
pair.  The claim's "down-converted losslessly" fails: `to_pydatetime`
discards sub-microsecond nanoseconds, so a timestamp with a nonzero
nanosecond remainder is dispatched as a different instant.
-/

/-- Counterexample for C7: a start bound of 1 ns past the epoch is
dispatched as the epoch itself — the conversion is not lossless and the
dispatched bound denotes a different instant than the input. -/
theorem c7_counterexample :
    _get_time_span_value c7kwargs =
      some (.dt { us := 0, tz := none }, .dt { us := 0, tz := none })
    ∧ instantNs (.ts { ns := 1, tz := none }) ≠
        instantNs (.dt { us := 0, tz := none }) := by
  exact ⟨by decide, by decide⟩

/-- C7 (amended): the dispatched timespan is `None` when
`default_time_params` is set or either bound is missing, and otherwise the
(start, end) pair with each `pd.Timestamp` bound down-converted by flooring
its nanosecond value to microseconds — lossless exactly when the timestamp
has no sub-microsecond component — with the timezone carried through
unchanged, and datetime bounds passed through untouched. -/
theorem c7_time_span_value (kwargs : QueryKwargs) :
    ((kwargs.default_time_params = true ∨ kwargs.time_span_start = none ∨
        kwargs.time_span_end = none) → _get_time_span_value kwargs = none)
    ∧ (∀ sv ev, kwargs.default_time_params = false →
        kwargs.time_span_start = some sv → kwargs.time_span_end = some ev →
        _get_time_span_value kwargs = some (convertBound sv, convertBound ev))
    ∧ (∀ v, tzOf (convertBound v) = tzOf v)
    ∧ (∀ t : PdTimestamp,
        convertBound (.ts t) = .dt { us := Int.fdiv t.ns 1000, tz := t.tz })
    ∧ (∀ t : PdTimestamp, t.ns % 1000 = 0 →
        instantNs (convertBound (.ts t)) = instantNs (.ts t))
    ∧ (∀ d : PyDatetime, convertBound (.dt d) = .dt d) := by
  refine ⟨?_, ?_, ?_, ?_, ?_, ?_⟩
  · intro h
    rcases h with h | h | h <;> simp [_get_time_span_value, h]
  · intro sv ev hd hs he
    simp [_get_time_span_value, hd, hs, he, timeSpanOf]
  · intro v
    cases v <;> rfl
  · intro t
    rfl
  · intro t ht
    have hdvd : (1000 : Int) ∣ t.ns := Int.dvd_of_emod_eq_zero ht
    obtain ⟨c, hc⟩ := hdvd
    simp only [convertBound, to_pydatetime, instantNs, hc]
    rw [Int.mul_fdiv_cancel_left c (by norm_num)]
    ring
  · intro d
    rfl

/-- Witness for C7: the empty-kwargs call returns `None`; the concrete
whole-microsecond call returns the converted pair; the whole-microsecond
timestamp keeps its instant. -/
theorem c7_time_span_value_witness :
    _get_time_span_value exKwargs = none
    ∧ _get_time_span_value c7kwargsFull =
        some (.dt { us := 5, tz := some 0 }, .dt { us := 7, tz := none })
    ∧ instantNs (convertBound (.ts { ns := 5000, tz := some 0 })) =
        instantNs (.ts { ns := 5000, tz := some 0 }) := by
  refine ⟨(c7_time_span_value exKwargs).1 (Or.inr (Or.inl rfl)), ?_, ?_⟩
  · exact ((c7_time_span_value c7kwargsFull).2.1 _ _ rfl rfl rfl).trans
      (by decide)
  · exact (c7_time_span_value exKwargs).2.2.2.2.1
      { ns := 5000, tz := some 0 } (by decide)

/-!
### Claim C8

The pre-dispatch table check: skipped on an empty schema; with a schema it
matches the effective table name case-sensitively and raises the
NoDataSourceError before dispatch when absent.  The claim's "after
trimming" fails: the source only trims (and truncates) when the trimmed
name still contains a space, so a name with leading/trailing whitespace and
no interior space is matched untrimmed.
-/

/-- Counterexample for C8: the declared table `" SecurityAlert"` trims to
`"SecurityAlert"` which is present in the schema, so under the claim no
NoDataSourceError would be raised — but the code matches the untrimmed
name and raises it. -/
theorem c8_counterexample :
    pyStrip " SecurityAlert" = "SecurityAlert"
    ∧ (exConnState.schema.any
        (fun p => p.1 == pyStrip " SecurityAlert") = true)
    ∧ query exConnState exSvc "SecurityAlert | take 1"
        (some { table_default := some " SecurityAlert" }) exKwargs =
        .error (.noDataSourceError " SecurityAlert not found.") := by
  exact ⟨by decide, by decide, by decide⟩

/-- C8 (amended): on a connected driver with a query source declaring a
table, the check is skipped entirely when the schema is empty; otherwise
the effective name — the trimmed name truncated at its first space when the
trimmed name contains a space, else the raw declared name — is matched
case-sensitively against the schema keys, a present name passing the query
through to dispatch and an absent one failing with the NoDataSourceError
independently of the query service, i.e. before dispatch. -/
theorem c8_table_check (s : DriverState) (q : String) (kwargs : QueryKwargs)
    (qs : QuerySrc) (tbl : String)
    (hconn : s.connected = true) (hcl : s.query_client.isSome = true)
    (htd : qs.table_default = some tbl) :
    (s.schema = [] → ∀ svc, query s svc q (some qs) kwargs =
      query_with_results s svc q kwargs)
    ∧ (s.schema ≠ [] → tbl ≠ "" →
        s.schema.any (fun p => p.1 == effectiveTableName tbl) = true →
        ∀ svc, query s svc q (some qs) kwargs =
          query_with_results s svc q kwargs)
    ∧ (s.schema ≠ [] → tbl ≠ "" →
        s.schema.any (fun p => p.1 == effectiveTableName tbl) = false →
        ∀ svc, query s svc q (some qs) kwargs =
          .error (.noDataSourceError (effectiveTableName tbl ++
            " not found."))) := by
  obtain ⟨c, hc⟩ := Option.isSome_iff_exists.mp hcl
  refine ⟨?_, ?_, ?_⟩
  · intro hemp svc
    simp [query, _check_table_exists, hconn, hc, htd, hemp,
      query_with_results]
  · intro hne htne hmem svc
    cases hsch : s.schema with
    | nil => exact absurd hsch hne
    | cons a t =>
      simp [query, _check_table_exists, hconn, hc, htd, hsch, htne,
        hsch ▸ hmem, query_with_results]
  · intro hne htne hmem svc
    cases hsch : s.schema with
    | nil => exact absurd hsch hne
    | cons a t =>
      simp [query, _check_table_exists, hconn, hc, htd, hsch, htne,
        hsch ▸ hmem]

/-- Witness for C8: on the concrete connected driver, a declared table
`"SecurityAlert"` present in the schema raises no error (the query runs),
and `"NoSuchTable"` fails with the NoDataSourceError. -/
theorem c8_table_check_witness :
    query exConnState exSvc "q" (some { table_default := some "SecurityAlert" })
        exKwargs = query_with_results exConnState exSvc "q" exKwargs
    ∧ query exConnState exSvc "q" (some { table_default := some "NoSuchTable" })
        exKwargs = .error (.noDataSourceError "NoSuchTable not found.") := by
  refine ⟨?_, ?_⟩
  · exact (c8_table_check exConnState "q" exKwargs
      { table_default := some "SecurityAlert" } "SecurityAlert" rfl rfl
      rfl).2.1 (by decide) (by decide) (by decide) exSvc
  · have h := (c8_table_check exConnState "q" exKwargs
      { table_default := some "NoSuchTable" } "NoSuchTable" rfl rfl
      rfl).2.2 (by decide) (by decide) (by decide) exSvc
    exact h.trans (by decide)

/-!
### Claim C9

`in_abuse_list` downgrades any failure of its four fallible steps to
`(False, None)` and never raises.  The claim's final clause — that a caller
cannot distinguish a lookup failure from a genuine negative match — fails:
a genuine negative match returns the certificate, a failure returns none.
-/

/-- Counterexample for C9: with the same parsing/fingerprint/lookup steps,
a failed certificate retrieval returns `(false, none)` while a genuine
negative match returns `(false, some cert)` — the two outcomes differ, so
the caller can distinguish them. -/
theorem c9_counterexample :
    in_abuse_list (.error "connection refused") c9parse c9finger c9lookupNeg =
      (false, none)
    ∧ in_abuse_list (.ok "pem") c9parse c9finger c9lookupNeg =
      (false, some "cert")
    ∧ ((false, (none : Option Cert)) ≠ (false, some ("cert" : Cert))) := by
  exact ⟨rfl, rfl, by decide⟩

/-- C9 (amended): `in_abuse_list` never raises — a failure of any of the
four steps (certificate retrieval, parsing, fingerprinting, abuse-list
lookup) is downgraded to the not-found result `(false, none)` — and a
genuine negative match returns `(false, some cert)`: the boolean component
alone cannot distinguish failure from a negative match, but the
certificate component is `none` exactly on failure. -/
theorem c9_in_abuse_list_downgrade (getCert : Except String String)
    (parseCert : String → Except String Cert)
    (fingerprintOf : Cert → Except String String)
    (abuseLookup : String → Except String Bool) :
    (∀ err, getCert = .error err →
      in_abuse_list getCert parseCert fingerprintOf abuseLookup =
        (false, none))
    ∧ (∀ pem err, getCert = .ok pem → parseCert pem = .error err →
      in_abuse_list getCert parseCert fingerprintOf abuseLookup =
        (false, none))
    ∧ (∀ pem c err, getCert = .ok pem → parseCert pem = .ok c →
      fingerprintOf c = .error err →
      in_abuse_list getCert parseCert fingerprintOf abuseLookup =
        (false, none))
    ∧ (∀ pem c hx err, getCert = .ok pem → parseCert pem = .ok c →
      fingerprintOf c = .ok hx → abuseLookup hx = .error err →
      in_abuse_list getCert parseCert fingerprintOf abuseLookup =
        (false, none))
    ∧ (∀ pem c hx, getCert = .ok pem → parseCert pem = .ok c →
      fingerprintOf c = .ok hx → abuseLookup hx = .ok false →
      in_abuse_list getCert parseCert fingerprintOf abuseLookup =
        (false, some c)) := by
  refine ⟨?_, ?_, ?_, ?_, ?_⟩
  · intro err h
    simp [in_abuse_list, h]
  · intro pem err h1 h2
    simp [in_abuse_list, h1, h2]
  · intro pem c err h1 h2 h3
    simp [in_abuse_list, h1, h2, h3]
  · intro pem c hx err h1 h2 h3 h4
    simp [in_abuse_list, h1, h2, h3, h4]
  · intro pem c hx h1 h2 h3 h4
    simp [in_abuse_list, h1, h2, h3, h4]

/-- Witness for C9: the concrete pipelines of the counterexample, solved
through the theorem. -/
theorem c9_in_abuse_list_downgrade_witness :
    in_abuse_list (.error "connection refused") c9parse c9finger c9lookupNeg =
      (false, none)
    ∧ in_abuse_list (.ok "pem") c9parse c9finger c9lookupNeg =
      (false, some "cert") := by
  refine ⟨?_, ?_⟩
  · exact (c9_in_abuse_list_downgrade (.error "connection refused") c9parse
      c9finger c9lookupNeg).1 "connection refused" rfl
  · exact (c9_in_abuse_list_downgrade (.ok "pem") c9parse c9finger
      c9lookupNeg).2.2.2.2 "pem" "cert" "ab12" rfl rfl rfl rfl

/-!
### Claim C10

`current_connection` always yields a non-empty string following the
documented priority chain, and its setter is a no-op.
-/

/-- A truthy optional string is a non-empty `some`. -/
theorem pyTruthy_some_ne {a : Option String} (h : pyTruthy a = true) :
    ∃ s, a = some s ∧ s ≠ "" := by
  cases a with
  | none => simp [pyTruthy] at h
  | some s => exact ⟨s, rfl, by simpa [pyTruthy] using h⟩

/-- The first truthy entry, defaulted to `"AzureMonitor"`, is non-empty. -/
theorem firstTruthy_getD_ne (l : List (Option String)) :
    (firstTruthy l).getD "AzureMonitor" ≠ "" := by
  induction l with
  | nil => simp [firstTruthy]
  | cons x xs ih =>
    simp only [firstTruthy]
    cases hx : pyTruthy x with
    | false => simpa [hx] using ih
    | true =>
      obtain ⟨s, rfl, hs⟩ := pyTruthy_some_ne hx
      simpa [hx] using hs

/-- The `or`-fallback chain of `current_connection` equals the first-truthy
priority chain. -/
theorem chain_eq_firstTruthy (c d w : Option String) (ids : List String) :
    (pyOrStr (pyOrStr (pyOrStr (pyOrStr c d) w) (some (ids.headD "")))
      (some "AzureMonitor")).getD "AzureMonitor"
    = (firstTruthy [c, d, w, ids.head?]).getD "AzureMonitor" := by
  cases ids with
  | nil =>
    simp only [pyOrStr, firstTruthy, List.headD, List.head?]
    split_ifs <;> simp_all [pyTruthy]
  | cons h t =>
    simp only [pyOrStr, firstTruthy, List.headD, List.head?]
    split_ifs <;> simp_all [pyTruthy]

/-- The combined first step of `current_connection` (workspace name, else
config name) folds into the priority chain. -/
theorem firstTruthy_config_step (s : DriverState) (rest : List (Option String)) :
    firstTruthy ((if pyTruthy s.ws_name then s.ws_name
      else match configName s with
           | some v => some v
           | none => s.ws_name) :: rest)
    = firstTruthy (s.ws_name :: configName s :: rest) := by
  cases hw : pyTruthy s.ws_name with
  | true => simp [firstTruthy, hw]
  | false =>
    cases hc : configName s with
    | none => simp [firstTruthy, hw, hc, pyTruthy]
    | some v =>
      cases hv : pyTruthy (some v) with
      | true => simp [firstTruthy, hw, hc, hv]
      | false => simp [firstTruthy, hw, hc, hv]

/-- C10: for every driver state, `current_connection` returns a non-empty
string equal to the priority chain — workspace name, else config workspace
name, else default connection string, else single workspace ID, else first
workspace ID of the list, else the literal `"AzureMonitor"` (each "set"
meaning truthy) — and assigning the property leaves the state unchanged. -/
theorem c10_current_connection (s : DriverState) (v : String) :
    current_connection s ≠ ""
    ∧ current_connection s = current_connection_spec s
    ∧ current_connection_set s v = s := by
  have heq : current_connection s = current_connection_spec s := by
    unfold current_connection current_connection_spec
    rw [chain_eq_firstTruthy]
    rw [firstTruthy_config_step s [s.def_connection_str, s.workspace_id,
      s.workspace_ids.head?]]
  refine ⟨?_, heq, rfl⟩
  rw [heq]
  exact firstTruthy_getD_ne _

/-!
### Dict lemmas

Facts about the association-list embedding of Python dicts, used by the
schema-formatting claim (C6) and the workspace-resolution claim (C3).
-/

/-- A key absent from the key list makes the membership test false. -/
theorem any_key_eq_false {β : Type} {d : List (String × β)} {k : String}
    (h : k ∉ d.map Prod.fst) : d.any (fun p => p.1 == k) = false := by
  rw [List.any_eq_false]
  intro p hp
  simp only [beq_iff_eq]
  intro he
  exact h (List.mem_map.mpr ⟨p, hp, he⟩)

/-- A key present in the key list makes the membership test true. -/
theorem any_key_eq_true {β : Type} {d : List (String × β)} {k : String}
    (h : k ∈ d.map Prod.fst) : d.any (fun p => p.1 == k) = true := by
  rw [List.any_eq_true]
  obtain ⟨p, hp, he⟩ := List.mem_map.mp h
  exact ⟨p, hp, by simp [he]⟩

/-- Updating an existing key leaves the key list unchanged. -/
theorem map_fst_dictInsert_update {β : Type} (d : List (String × β))
    (k : String) (v : β) (h : d.any (fun p => p.1 == k) = true) :
    (dictInsert d k v).map Prod.fst = d.map Prod.fst := by
  simp only [dictInsert, h, if_true]
  rw [List.map_map]
  apply List.map_congr_left
  intro p _
  simp only [Function.comp_apply]
  split
  · next hpk => exact (eq_of_beq hpk).symm
  · rfl

/-- Inserting an absent key appends its pair. -/
theorem dictInsert_of_not_mem {β : Type} {d : List (String × β)} {k : String}
    (v : β) (h : k ∉ d.map Prod.fst) : dictInsert d k v = d ++ [(k, v)] := by
  unfold dictInsert
  rw [any_key_eq_false h]
  simp

/-- Inserting a present key updates its pair in place. -/
theorem dictInsert_of_mem {β : Type} {d : List (String × β)} {k : String}
    (v : β) (h : k ∈ d.map Prod.fst) :
    dictInsert d k v = d.map (fun p => if p.1 == k then (k, v) else p) := by
  unfold dictInsert
  rw [any_key_eq_true h]
  simp

/-- `dictInsert` preserves distinctness of the keys. -/
theorem nodup_keys_dictInsert {β : Type} {d : List (String × β)}
    (k : String) (v : β) (h : (d.map Prod.fst).Nodup) :
    ((dictInsert d k v).map Prod.fst).Nodup := by
  by_cases hk : k ∈ d.map Prod.fst
  · rw [map_fst_dictInsert_update d k v (any_key_eq_true hk)]
    exact h
  · rw [dictInsert_of_not_mem v hk, List.map_append, List.nodup_append]
    refine ⟨h, List.nodup_singleton _, ?_⟩
    intro a ha hb
    simp only [List.map_cons, List.map_nil, List.mem_singleton] at hb
    exact hk (hb ▸ ha)

/-- Repeated insertion preserves distinctness of the keys, for any list of
inserted items with a key and value projection. -/
theorem nodup_keys_foldl {β γ : Type} (key : γ → String) (val : γ → β)
    (xs : List γ) :
    ∀ d : List (String × β), (d.map Prod.fst).Nodup →
      ((xs.foldl (fun d x => dictInsert d (key x) (val x)) d).map
        Prod.fst).Nodup := by
  induction xs with
  | nil => intro d h; exact h
  | cons x t ih =>
    intro d h
    exact ih _ (nodup_keys_dictInsert (key x) (val x) h)

/-- A dict comprehension has distinct keys. -/
theorem nodup_keys_dictOfPairs {β : Type} (ps : List (String × β)) :
    ((dictOfPairs ps).map Prod.fst).Nodup :=
  nodup_keys_foldl Prod.fst Prod.snd ps [] (by simp)

/-- Building a dict from pairs with distinct keys appends them in order. -/
theorem foldl_dictInsert_of_nodup {β : Type} (ps : List (String × β)) :
    ∀ d, ((d ++ ps).map Prod.fst).Nodup →
      ps.foldl (fun d p => dictInsert d p.1 p.2) d = d ++ ps := by
  induction ps with
  | nil => intro d _; simp
  | cons p t ih =>
    intro d h
    have hnotin : p.1 ∉ d.map Prod.fst := by
      rw [List.map_append, List.nodup_append] at h
      intro hmem
      exact h.2.2 hmem (by simp)
    have hstep : dictInsert d p.1 p.2 = d ++ [p] := by
      simp [dictInsert, any_key_eq_false hnotin]
    rw [List.foldl_cons, hstep]
    have h' : (((d ++ [p]) ++ t).map Prod.fst).Nodup := by
      simpa [List.append_assoc] using h
    rw [ih _ h', List.append_assoc]
    simp

/-- A pair list with distinct keys is its own dict. -/
theorem dictOfPairs_eq_self {β : Type} (ps : List (String × β))
    (h : (ps.map Prod.fst).Nodup) : dictOfPairs ps = ps := by
  have := foldl_dictInsert_of_nodup ps [] (by simpa using h)
  simpa [dictOfPairs] using this

/-- Every entry of `dictInsert d k v` is an entry of `d` or the inserted
pair. -/
theorem mem_dictInsert {β : Type} {q : String × β} {d : List (String × β)}
    {k : String} {v : β} (h : q ∈ dictInsert d k v) : q ∈ d ∨ q = (k, v) := by
  unfold dictInsert at h
  split at h
  · obtain ⟨p, hp, he⟩ := List.mem_map.mp h
    by_cases hpk : (p.1 == k) = true
    · right
      rw [← he]
      simp [hpk]
    · left
      rw [← he]
      simp only [hpk, if_false]
      exact hp
  · rcases List.mem_append.mp h with h' | h'
    · exact Or.inl h'
    · right
      simpa using h'

/-- Every entry of a repeated insertion comes from the base dict or from
the inserted items. -/
theorem mem_foldl_dictInsert {β γ : Type} (key : γ → String) (val : γ → β)
    (xs : List γ) :
    ∀ d q, q ∈ xs.foldl (fun d x => dictInsert d (key x) (val x)) d →
      q ∈ d ∨ ∃ x ∈ xs, q = (key x, val x) := by
  induction xs with
  | nil => intro d q h; exact Or.inl h
  | cons x t ih =>
    intro d q h
    rcases ih _ _ h with h' | h'
    · rcases mem_dictInsert h' with h'' | h''
      · exact Or.inl h''
      · exact Or.inr ⟨x, by simp, h''⟩
    · obtain ⟨y, hy, he⟩ := h'
      exact Or.inr ⟨y, List.mem_cons_of_mem _ hy, he⟩

/-- Every entry of a dict comprehension is one of the input pairs. -/
theorem mem_dictOfPairs {β : Type} {ps : List (String × β)} {q : String × β}
    (h : q ∈ dictOfPairs ps) : q ∈ ps := by
  rcases mem_foldl_dictInsert Prod.fst Prod.snd ps [] q h with h' | h'
  · cases h'
  · obtain ⟨x, hx, he⟩ := h'
    rw [he]
    exact hx

/-- `dlookup` misses exactly the absent keys. -/
theorem dlookup_eq_none {β : Type} {k : String} {d : List (String × β)} :
    dlookup k d = none ↔ k ∉ d.map Prod.fst := by
  induction d with
  | nil => simp [dlookup]
  | cons p t ih =>
    obtain ⟨a, b⟩ := p
    by_cases hp : a = k
    · subst hp
      simp [dlookup]
    · simp [dlookup, hp, ih, Ne.symm hp]

/-- With distinct keys, `dlookup` finds exactly the entries. -/
theorem dlookup_eq_some_iff {β : Type} {d : List (String × β)}
    (hn : (d.map Prod.fst).Nodup) (k : String) (v : β) :
    dlookup k d = some v ↔ (k, v) ∈ d := by
  induction d with
  | nil => simp [dlookup]
  | cons p t ih =>
    obtain ⟨a, b⟩ := p
    rw [List.map_cons, List.nodup_cons] at hn
    by_cases hp : a = k
    · subst hp
      simp only [dlookup, List.mem_cons]
      constructor
      · intro h
        simp only [beq_self_eq_true, if_true] at h
        exact Or.inl (by rw [Option.some.inj h])
      · intro h
        rcases h with h | h
        · obtain ⟨h1, h2⟩ := Prod.mk.injEq .. ▸ h
          simp [dlookup, h2]
        · exact absurd (List.mem_map.mpr ⟨(a, v), h, rfl⟩) hn.1
    · simp only [dlookup, List.mem_cons]
      have hb : (a == k) = false := beq_eq_false_iff_ne.mpr hp
      rw [hb]
      simp only [Bool.false_eq_true, if_false]
      rw [ih hn.2]
      constructor
      · exact Or.inr
      · intro h
        rcases h with h | h
        · exact absurd (congrArg Prod.fst h).symm hp
        · exact h

/-- With distinct keys, `dlookup` is invariant under permutation. -/
theorem dlookup_perm {β : Type} {d₁ d₂ : List (String × β)}
    (h : d₁.Perm d₂) (hn : (d₁.map Prod.fst).Nodup) (k : String) :
    dlookup k d₁ = dlookup k d₂ := by
  have hn₂ : (d₂.map Prod.fst).Nodup := (h.map Prod.fst).nodup hn
  cases hv : dlookup k d₁ with
  | some v =>
    exact ((dlookup_eq_some_iff hn₂ k v).mpr
      (h.mem_iff.mp ((dlookup_eq_some_iff hn k v).mp hv))).symm
  | none =>
    have hk := dlookup_eq_none.mp hv
    exact (dlookup_eq_none.mpr
      (fun hc => hk (((h.map Prod.fst).mem_iff).mpr hc))).symm

/-- Updating key `k` does not change lookups of other keys. -/
theorem dlookup_map_update_ne {β : Type} (d : List (String × β))
    (k k' : String) (v : β) (h : k' ≠ k) :
    dlookup k' (d.map (fun p => if p.1 == k then (k, v) else p)) =
      dlookup k' d := by
  induction d with
  | nil => rfl
  | cons p t ih =>
    obtain ⟨a, b⟩ := p
    simp only [beq_iff_eq] at ih
    simp only [List.map_cons]
    by_cases hp : a = k
    · subst hp
      have hne : a ≠ k' := fun hc => h hc.symm
      simp [dlookup, hne, ih]
    · by_cases hp' : a = k'
      · simp [dlookup, hp, hp', h]
      · simp [dlookup, hp, hp', ih]

/-- Updating a present key `k` makes its lookup the new value. -/
theorem dlookup_map_update_eq {β : Type} (d : List (String × β))
    (k : String) (v : β) (h : k ∈ d.map Prod.fst) :
    dlookup k (d.map (fun p => if p.1 == k then (k, v) else p)) = some v := by
  induction d with
  | nil => cases h
  | cons p t ih =>
    obtain ⟨a, b⟩ := p
    simp only [beq_iff_eq] at ih
    simp only [List.map_cons]
    by_cases hp : a = k
    · subst hp
      simp [dlookup]
    · have hmem : k ∈ t.map Prod.fst := by
        rcases List.mem_cons.mp h with h' | h'
        · exact absurd h'.symm hp
        · exact h'
      simp [dlookup, hp, ih hmem]

/-- Lookup after appending a single pair. -/
theorem dlookup_append_single {β : Type} (d : List (String × β))
    (p : String × β) (k : String) :
    dlookup k (d ++ [p]) =
      (dlookup k d).or (if p.1 == k then some p.2 else none) := by
  induction d with
  | nil => simp [dlookup, Option.or]
  | cons q t ih =>
    obtain ⟨a, b⟩ := q
    by_cases hq : a = k
    · simp [dlookup, hq, Option.or]
    · simp [dlookup, hq, ih]

/-- Lookup through a dict insertion: the inserted key reads the new value,
all other keys are unchanged. -/
theorem dlookup_dictInsert {β : Type} (d : List (String × β))
    (k k' : String) (v : β) :
    dlookup k' (dictInsert d k v) =
      if k' = k then some v else dlookup k' d := by
  by_cases hk : k ∈ d.map Prod.fst
  · rw [dictInsert_of_mem v hk]
    by_cases he : k' = k
    · subst he
      rw [if_pos rfl]
      exact dlookup_map_update_eq d k' v hk
    · rw [dlookup_map_update_ne d k k' v he, if_neg he]
  · rw [dictInsert_of_not_mem v hk, dlookup_append_single]
    by_cases he : k' = k
    · subst he
      rw [dlookup_eq_none.mpr hk]
      simp [Option.or]
    · rw [if_neg he]
      have hb : (k == k') = false :=
        beq_eq_false_iff_ne.mpr (fun hc => he hc.symm)
      rw [hb]
      simp only [Bool.false_eq_true, if_false]
      cases dlookup k' d <;> simp [Option.or]

/-- Folding the custom columns over a dict: a custom name reads the custom
type, anything else falls through to the base dict. -/
theorem dlookup_fold_custom (customs : List RawColumn) :
    ∀ (d : List (String × String)) (k : String),
      (customs.map RawColumn.name).Nodup →
      dlookup k (customs.foldl (fun d c => dictInsert d c.name c.ctype) d) =
        (dlookup k (customs.map (fun c => (c.name, c.ctype)))).or
          (dlookup k d) := by
  induction customs with
  | nil => intro d k _; simp [dlookup, Option.or]
  | cons c cs ih =>
    intro d k hn
    rw [List.map_cons, List.nodup_cons] at hn
    rw [List.foldl_cons, ih _ _ hn.2]
    by_cases he : c.name = k
    · have hcs : dlookup k (cs.map fun c => (c.name, c.ctype)) = none := by
        apply dlookup_eq_none.mpr
        rw [List.map_map]
        intro hc
        obtain ⟨x, hx, hxe⟩ := List.mem_map.mp hc
        exact hn.1 (he ▸ hxe ▸ List.mem_map.mpr ⟨x, hx, rfl⟩)
      rw [hcs, dlookup_dictInsert, if_pos he.symm]
      simp [dlookup, he, Option.or]
    · rw [dlookup_dictInsert, if_neg (fun hc => he hc.symm)]
      have : (c.name == k) = false := by
        simp only [beq_eq_false_iff_ne, ne_eq]
        exact he
      simp only [List.map_cons, dlookup, this, if_false, Bool.false_eq_true]

/-- `sortByKey` sorts. -/
theorem sorted_sortByKey {β : Type} (d : List (String × β)) :
    (sortByKey d).Sorted keyLe :=
  List.sorted_insertionSort keyLe d

/-- `sortByKey` permutes. -/
theorem perm_sortByKey {β : Type} (d : List (String × β)) :
    (sortByKey d).Perm d :=
  List.perm_insertionSort keyLe d

/-- Two key-sorted permutations of each other with distinct keys are equal:
sorting an association list with distinct keys has a unique result. -/
theorem eq_of_perm_sorted_nodup_keys {β : Type} {l₁ : List (String × β)} :
    ∀ {l₂ : List (String × β)}, l₁.Perm l₂ → (l₁.map Prod.fst).Nodup →
      l₁.Sorted keyLe → l₂.Sorted keyLe → l₁ = l₂ := by
  induction l₁ with
  | nil =>
    intro l₂ hp _ _ _
    exact hp.nil_eq
  | cons a t₁ ih =>
    intro l₂ hp hn hs₁ hs₂
    cases l₂ with
    | nil => cases hp.symm.nil_eq
    | cons b t₂ =>
      by_cases hab : a = b
      · subst hab
        rw [List.map_cons, List.nodup_cons] at hn
        rw [List.sorted_cons] at hs₁ hs₂
        rw [ih hp.cons_inv hn.2 hs₁.2 hs₂.2]
      · exfalso
        have hat₂ : a ∈ t₂ := by
          rcases List.mem_cons.mp (hp.mem_iff.mp (List.mem_cons_self a t₁))
            with h | h
          · exact absurd h hab
          · exact h
        have hbt₁ : b ∈ t₁ := by
          rcases List.mem_cons.mp (hp.mem_iff.mpr (List.mem_cons_self b t₂))
            with h | h
          · exact absurd h.symm hab
          · exact h
        rw [List.sorted_cons] at hs₁ hs₂
        have h₁ : a.1 ≤ b.1 := hs₁.1 b hbt₁
        have h₂ : b.1 ≤ a.1 := hs₂.1 a hat₂
        rw [List.map_cons, List.nodup_cons] at hn
        exact hn.1 (le_antisymm h₁ h₂ ▸ List.mem_map.mpr ⟨b, hbt₁, rfl⟩)

/-!
### Claim C6

Schema formatting: order-independent on the raw table list (given the
endpoint's distinct table names), sorted at both levels, and the
custom-over-standard column merge.
-/

/-- C6: formatting is order-independent — for raw table lists with distinct
table names, as the management endpoint returns, any input ordering yields
the identical mapping (so repeated formatting of the same data is
reproducible) — the result is sorted at the table level, every column
mapping in it is sorted, and a formatted table's column lookup reads the
custom column's type when the name has a custom column and the standard
column's type otherwise. -/
theorem c6_schema_formatting (l₁ l₂ : List RawTable) (sc : RawSchema)
    (n : String) (hp : l₁.Perm l₂) (hn : (l₁.map RawTable.name).Nodup)
    (hstd : (sc.standardColumns.map RawColumn.name).Nodup)
    (hcust : (sc.customColumns.map RawColumn.name).Nodup) :
    _schema_format_tables l₁ = _schema_format_tables l₂
    ∧ (_schema_format_tables l₁).Sorted keyLe
    ∧ (∀ p ∈ _schema_format_tables l₁, p.2.Sorted keyLe)
    ∧ dlookup n (_schema_format_columns sc) =
        (dlookup n (sc.customColumns.map (fun c => (c.name, c.ctype)))).or
          (dlookup n (sc.standardColumns.map (fun c => (c.name, c.ctype)))) := by
  refine ⟨?_, sorted_sortByKey _, ?_, ?_⟩
  · unfold _schema_format_tables
    have hk₁ : ((l₁.map (fun t => (t.name, _schema_format_columns
        t.schema))).map Prod.fst).Nodup := by
      rw [List.map_map]
      exact hn
    have hpm := hp.map (fun t => (t.name, _schema_format_columns t.schema))
    have hk₂ := (hpm.map Prod.fst).nodup hk₁
    rw [dictOfPairs_eq_self _ hk₁, dictOfPairs_eq_self _ hk₂]
    exact eq_of_perm_sorted_nodup_keys
      ((perm_sortByKey _).trans (hpm.trans (perm_sortByKey _).symm))
      (((perm_sortByKey _).symm.map Prod.fst).nodup hk₁)
      (sorted_sortByKey _) (sorted_sortByKey _)
  · intro p hm
    have hm' := (perm_sortByKey _).mem_iff.mp hm
    obtain ⟨t, _, he⟩ := List.mem_map.mp (mem_dictOfPairs hm')
    rw [← he]
    exact sorted_sortByKey _
  · unfold _schema_format_columns
    have hstdk : ((sc.standardColumns.map (fun c =>
        (c.name, c.ctype))).map Prod.fst).Nodup := by
      rw [List.map_map]
      exact hstd
    have hmerged : ((sc.customColumns.foldl
        (fun d c => dictInsert d c.name c.ctype)
        (dictOfPairs (sc.standardColumns.map (fun c =>
          (c.name, c.ctype))))).map Prod.fst).Nodup :=
      nodup_keys_foldl RawColumn.name RawColumn.ctype sc.customColumns _
        (nodup_keys_dictOfPairs _)
    rw [dlookup_perm (perm_sortByKey _)
      (((perm_sortByKey _).symm.map Prod.fst).nodup hmerged) n]
    rw [dlookup_fold_custom sc.customColumns _ n hcust]
    rw [dictOfPairs_eq_self _ hstdk]

/-- Witness for C6: the two-table raw list and its reverse format to the
same mapping, and the overridden column `"B"` reads its custom type. -/
theorem c6_schema_formatting_witness :
    _schema_format_tables [c6tableA, c6tableB] =
      _schema_format_tables [c6tableB, c6tableA]
    ∧ dlookup "B" (_schema_format_columns c6tableA.schema) = some "dynamic" := by
  have h := c6_schema_formatting [c6tableA, c6tableB] [c6tableB, c6tableA]
    c6tableA.schema "B" (List.Perm.swap c6tableB c6tableA [])
    (by decide) (by decide) (by decide)
  exact ⟨h.1, h.2.2.2.trans (by decide)⟩

/-!
### Claim C3

Resolution of a workspace-name list with mismatched tenant IDs.  The claim
as stated fails: the code collects the `(workspace_id, tenant_id)` pairs
into a dict keyed by workspace ID before checking tenant distinctness, so
two names resolving to the same workspace ID with different tenant IDs do
not fail.
-/

/-- Counterexample for C3: two workspace names resolving to one workspace
ID with two distinct tenant IDs — the resolved configs contain two distinct
tenant IDs, yet resolution and client creation succeed. -/
theorem c3_counterexample :
    ((["w1", "w2"].map (fun w => (c3cfg w).2)).dedup.length = 2)
    ∧ (_get_workspaces_by_name c3cfg exState ["w1", "w2"]).isOk = true
    ∧ (_create_query_client c3cfg exSingleWs (.ok ()) exState none
        { exConnKwargs with workspaces := some ["w1", "w2"] }).isOk = true := by
  exact ⟨by decide, by decide, by decide⟩

/-- C3 (amended): for every workspace-name list whose resolved configs,
after being collected into a mapping keyed by workspace ID (a later name
overriding an earlier one with the same workspace ID), still contain two or
more distinct tenant IDs, client creation fails with the
`ValueError("All workspaces must have the same tenant ID.")` — the spec's
ConfigurationError case — for every behaviour of the credential provider,
i.e. before any network call; in particular every list with pairwise
distinct resolved workspace IDs and at least two distinct tenant IDs
fails. -/
theorem c3_mismatched_tenants (cfgName : String → String × String)
    (singleWs : DriverState → Option String → ConnectKwargs →
      Except MpError DriverState)
    (az : Except MpError Unit) (s : DriverState)
    (connection_str : Option String) (kwargs : ConnectKwargs)
    (w : String) (ws : List String)
    (hws : kwargs.workspaces = some (w :: ws)) :
    (1 < ((dictOfPairs ((w :: ws).map cfgName)).map
        (fun p => p.2)).dedup.length →
      _create_query_client cfgName singleWs az s connection_str kwargs =
        .error (.valueError "All workspaces must have the same tenant ID."))
    ∧ (((w :: ws).map (fun x => (cfgName x).1)).Nodup →
      1 < ((w :: ws).map (fun x => (cfgName x).2)).dedup.length →
      _create_query_client cfgName singleWs az s connection_str kwargs =
        .error (.valueError "All workspaces must have the same tenant ID.")) := by
  have hmain : ∀ hmt : 1 < ((dictOfPairs ((w :: ws).map cfgName)).map
      (fun p => p.2)).dedup.length,
      _create_query_client cfgName singleWs az s connection_str kwargs =
        .error (.valueError "All workspaces must have the same tenant ID.") := by
    intro hmt
    rw [List.map_cons] at hmt
    simp [_create_query_client, _get_workspaces, hws,
      _get_workspaces_by_name, hmt]
  refine ⟨hmain, ?_⟩
  intro hnodup hmt
  apply hmain
  have hkeys : (((w :: ws).map cfgName).map Prod.fst).Nodup := by
    rw [List.map_map]
    exact hnodup
  rw [dictOfPairs_eq_self _ hkeys, List.map_map]
  exact hmt

/-- Witness for C3 (amended): two names with distinct workspace IDs and
distinct tenant IDs fail with the ValueError. -/
theorem c3_mismatched_tenants_witness :
    _create_query_client c3cfgB exSingleWs (.ok ()) exState none
      { exConnKwargs with workspaces := some ["w1", "w2"] } =
      .error (.valueError "All workspaces must have the same tenant ID.") :=
  (c3_mismatched_tenants c3cfgB exSingleWs (.ok ()) exState none
    { exConnKwargs with workspaces := some ["w1", "w2"] } "w1" ["w2"]
    rfl).2 (by decide) (by decide)

end Msticpy
